import Mathlib

/-!
Verification of the SocketWave C++ chat clients.

The repository ships three copies of a line-oriented TCP chat client:

* `src/chat_client_linux.cpp` — the improved client (ANSI colors,
  timestamps, a LOGIN flow, a `/quit` command, a `coutMutex` guarding the
  receiver's console output);
* `src/unnamed/part_000`, lines 1-135 — a basic client (no LOGIN flow, no
  mutex; its receiver distinguishes a zero-byte read from a negative one,
  and `/quit` exits the loop without sending anything);
* `src/unnamed/part_000`, lines 136-303 — a duplicated variant of the
  improved client (same statements except on the connect-failure path).

The embedding models each client as a pure trace generator.  Interaction
with the operating system is made explicit:

* `RecvOutcome` is the outcome of one blocking `recv` call (a chunk of
  data, a zero-byte orderly close, or a negative transport error);
* `sendRes : Nat → Int` gives the return value of the k-th `send` call
  performed by the sender loop (the LOGIN send is call 0 and its result
  is never inspected by the code);
* `clock : Nat → String` gives the `getTimestamp()` result for the i-th
  received chunk;
* the operator's stdin is a list of lines as `std::getline` yields them
  (so without their newline characters).

A run is a list of `Ev` events: blocking receives, mutex operations,
console writes, socket writes, the `close` of the socket and the `join`
on the receiver thread.  Each client function returns its event trace
together with a termination marker (`Bool` for the receiver loop,
`Option Int` — the process exit status — for `main`; `none` means the
modelled input was exhausted while the program was still waiting for
more operator input).
-/

/-- Observable events of a client run. -/
inductive Ev : Type where
  | recvCall : Ev
  | lockAcquire : Ev
  | lockRelease : Ev
  | print : String → Ev
  | printErr : String → Ev
  | send : String → Ev
  | closeFd : Ev
  | joinReceiver : Ev
deriving DecidableEq, Repr

/-- Outcome of one blocking `recv` call: a positive-length chunk of data,
a zero-byte read (orderly close), or a negative return (transport error). -/
inductive RecvOutcome : Type where
  | data : String → RecvOutcome
  | closed : RecvOutcome
  | err : RecvOutcome
deriving DecidableEq, Repr

/-- ANSI escape `\033[0m` from the `RESET` macro. -/
def RESET : String := "\x1b[0m"

/-- ANSI escape `\033[36m` from the `CYAN` macro. -/
def CYAN : String := "\x1b[36m"

/-- ANSI escape `\033[32m` from the `GREEN` macro. -/
def GREEN : String := "\x1b[32m"

/-- ANSI escape `\033[33m` from the `YELLOW` macro. -/
def YELLOW : String := "\x1b[33m"

/-- The socket payloads of a trace, in order. -/
def sendsOf : List Ev → List String
  | [] => []
  | Ev.send s :: r => s :: sendsOf r
  | _ :: r => sendsOf r

namespace ChatClientLinux

/-- Model of `receiveMessages` in `src/chat_client_linux.cpp` (lines 39-66).
The loop blocks in `recv`; a positive return renders the chunk (GREEN if it
starts with `SERVER:`, CYAN otherwise, prefixed by a bracketed timestamp)
and re-prints the `You: ` prompt, both under `coutMutex`; any non-positive
return prints a disconnect notice under the mutex and breaks.  `clock i` is
the `getTimestamp()` result for the i-th chunk.  The boolean is `true` when
the loop terminated on the modelled input. -/
def receiveMessages (clock : Nat → String) : Nat → List RecvOutcome → List Ev × Bool
  | _, [] => ([], false)
  | i, RecvOutcome.data msg :: rest =>
      (Ev.recvCall :: Ev.lockAcquire ::
        Ev.print (if msg.startsWith "SERVER:" then
            "\n" ++ ("[" ++ clock i ++ "] ") ++ GREEN ++ msg ++ RESET ++ "\n"
          else
            "\n" ++ ("[" ++ clock i ++ "] ") ++ CYAN ++ msg ++ RESET ++ "\n") ::
        Ev.print (YELLOW ++ "You: " ++ RESET) ::
        Ev.lockRelease :: (receiveMessages clock (i + 1) rest).1,
       (receiveMessages clock (i + 1) rest).2)
  | _, _ :: _ =>
      ([Ev.recvCall, Ev.lockAcquire, Ev.print "\nDisconnected from server.\n",
        Ev.lockRelease], true)

/-- Model of the sending loop of `main` in `src/chat_client_linux.cpp`
(lines 105-118).  `message == "/quit"` sends the quit line and breaks
without inspecting the send result; otherwise the line is sent and a
non-positive result prints a failure notice (not under the mutex) and
breaks.  `sendRes k` is the return value of the k-th `send` call of the
process; the loop's first send is call number 1 (call 0 is the LOGIN
send).  `none` means the modelled input ran out with the loop still
waiting on `getline`. -/
def senderLoop (sendRes : Nat → Int) : Nat → List String → List Ev × Option Unit
  | _, [] => ([], none)
  | k, message :: rest =>
      if message = "/quit" then
        ([Ev.send message], some ())
      else if sendRes k ≤ 0 then
        ([Ev.send message,
          Ev.print "\nFailed to send message. Server may be offline.\n"], some ())
      else
        (Ev.send message :: (senderLoop sendRes (k + 1) rest).1,
         (senderLoop sendRes (k + 1) rest).2)

/-- The events `main` produces between a successful `connect` and the start
of the sending loop (lines 88-103): the connected notice, the username
prompt, the `LOGIN` send (whose result is not inspected), and the initial
`You: ` prompt.  None of these writes takes `coutMutex`. -/
def startupEvents (username : String) : List Ev :=
  [Ev.print (GREEN ++ "Connected to server." ++ RESET ++ "\n"),
   Ev.print "Enter username: ",
   Ev.send ("LOGIN " ++ username),
   Ev.print (YELLOW ++ "You: " ++ RESET)]

/-- Model of `main` in `src/chat_client_linux.cpp` (lines 68-124).
`socketOk` and `connectOk` are the outcomes of `socket` and `connect`;
failure of either prints an error on stderr and exits with status 1 (this
copy does not close the socket on connect failure).  After a successful
connect, the startup events run, then the sending loop; when the loop
exits, the socket is closed, the receiver joined, and the process exits
with status 0. -/
def main (socketOk connectOk : Bool) (username : String) (lines : List String)
    (sendRes : Nat → Int) : List Ev × Option Int :=
  if socketOk = false then
    ([Ev.printErr "Error creating socket.\n"], some 1)
  else if connectOk = false then
    ([Ev.printErr "Failed to connect to the server.\n"], some 1)
  else if (senderLoop sendRes 1 lines).2 = none then
    (startupEvents username ++ (senderLoop sendRes 1 lines).1, none)
  else
    (startupEvents username ++ (senderLoop sendRes 1 lines).1
      ++ [Ev.closeFd, Ev.joinReceiver], some 0)

/-- `sizeof(buffer)` in `receiveMessages`: `char buffer[1024]` (line 40). -/
def bufferSize : Nat := 1024

/-- The byte capacity passed to `recv`: `sizeof(buffer) - 1` (line 42). -/
def recvCapacity : Nat := bufferSize - 1

/-- The buffer indices written by one loop iteration that received
`bytesReceived` bytes: the data bytes land at `0 .. bytesReceived - 1` and
the terminator store `buffer[bytesReceived] = '\0'` at `bytesReceived`
(lines 42-44). -/
def writtenIndices (bytesReceived : Nat) : List Nat :=
  List.range bytesReceived ++ [bytesReceived]

end ChatClientLinux

namespace Part000Basic

/-- Model of `receiveMessages` of the basic client, `src/unnamed/part_000`
lines 41-64.  A positive `recv` prints the chunk verbatim (plus `endl`); a
zero return prints `Server disconnected.` on stdout and breaks; a negative
return prints `Error receiving data.` on stderr and breaks.  There is no
mutex in this program. -/
def receiveMessages : List RecvOutcome → List Ev × Bool
  | [] => ([], false)
  | RecvOutcome.data msg :: rest =>
      (Ev.recvCall :: Ev.print (msg ++ "\n") :: (receiveMessages rest).1,
       (receiveMessages rest).2)
  | RecvOutcome.closed :: _ =>
      ([Ev.recvCall, Ev.print "Server disconnected.\n"], true)
  | RecvOutcome.err :: _ =>
      ([Ev.recvCall, Ev.printErr "Error receiving data.\n"], true)

/-- Model of the sending loop of the basic client's `main`,
`src/unnamed/part_000` lines 111-123.  `/quit` breaks the loop without
sending anything; every other line is sent with the result ignored. -/
def senderLoop : List String → List Ev × Option Unit
  | [] => ([], none)
  | message :: rest =>
      if message = "/quit" then
        ([], some ())
      else
        (Ev.send message :: (senderLoop rest).1, (senderLoop rest).2)

/-- Model of the basic client's `main`, `src/unnamed/part_000` lines
66-135.  On connect failure it closes the socket and exits 1; after a
successful connect there is no LOGIN flow and no prompt, only the
connected notice, the sending loop, then close, join, and exit status 0. -/
def main (socketOk connectOk : Bool) (lines : List String) : List Ev × Option Int :=
  if socketOk = false then
    ([Ev.printErr "Error creating socket.\n"], some 1)
  else if connectOk = false then
    ([Ev.printErr "Failed to connect to server.\n", Ev.closeFd], some 1)
  else if (senderLoop lines).2 = none then
    ([Ev.print "Connected to the server.\n"] ++ (senderLoop lines).1, none)
  else
    ([Ev.print "Connected to the server.\n"] ++ (senderLoop lines).1
      ++ [Ev.closeFd, Ev.joinReceiver], some 0)

end Part000Basic

namespace Part000Improved

/-- Model of `receiveMessages` of the duplicated improved client,
`src/unnamed/part_000` lines 195-229.  Statement for statement the same
code as `ChatClientLinux.receiveMessages`. -/
def receiveMessages (clock : Nat → String) : Nat → List RecvOutcome → List Ev × Bool
  | _, [] => ([], false)
  | i, RecvOutcome.data msg :: rest =>
      (Ev.recvCall :: Ev.lockAcquire ::
        Ev.print (if msg.startsWith "SERVER:" then
            "\n" ++ ("[" ++ clock i ++ "] ") ++ GREEN ++ msg ++ RESET ++ "\n"
          else
            "\n" ++ ("[" ++ clock i ++ "] ") ++ CYAN ++ msg ++ RESET ++ "\n") ::
        Ev.print (YELLOW ++ "You: " ++ RESET) ::
        Ev.lockRelease :: (receiveMessages clock (i + 1) rest).1,
       (receiveMessages clock (i + 1) rest).2)
  | _, _ :: _ =>
      ([Ev.recvCall, Ev.lockAcquire, Ev.print "\nDisconnected from server.\n",
        Ev.lockRelease], true)

/-- Sending loop of the duplicated improved client's `main`,
`src/unnamed/part_000` lines 277-296; same statements as
`ChatClientLinux.senderLoop`. -/
def senderLoop (sendRes : Nat → Int) : Nat → List String → List Ev × Option Unit
  | _, [] => ([], none)
  | k, message :: rest =>
      if message = "/quit" then
        ([Ev.send message], some ())
      else if sendRes k ≤ 0 then
        ([Ev.send message,
          Ev.print "\nFailed to send message. Server may be offline.\n"], some ())
      else
        (Ev.send message :: (senderLoop sendRes (k + 1) rest).1,
         (senderLoop sendRes (k + 1) rest).2)

/-- Startup events of the duplicated improved client (lines 259-275);
identical to `ChatClientLinux.startupEvents`. -/
def startupEvents (username : String) : List Ev :=
  [Ev.print (GREEN ++ "Connected to server." ++ RESET ++ "\n"),
   Ev.print "Enter username: ",
   Ev.send ("LOGIN " ++ username),
   Ev.print (YELLOW ++ "You: " ++ RESET)]

/-- Model of the duplicated improved client's `main`,
`src/unnamed/part_000` lines 235-303.  The only statement-level difference
from `ChatClientLinux.main` is the connect-failure branch (lines 252-257):
a longer stderr notice, and `close(clientSocket)` before `return 1`. -/
def main (socketOk connectOk : Bool) (username : String) (lines : List String)
    (sendRes : Nat → Int) : List Ev × Option Int :=
  if socketOk = false then
    ([Ev.printErr "Error creating socket.\n"], some 1)
  else if connectOk = false then
    ([Ev.printErr "Failed to connect to the server. Ensure server is running.\n",
      Ev.closeFd], some 1)
  else if (senderLoop sendRes 1 lines).2 = none then
    (startupEvents username ++ (senderLoop sendRes 1 lines).1, none)
  else
    (startupEvents username ++ (senderLoop sendRes 1 lines).1
      ++ [Ev.closeFd, Ev.joinReceiver], some 0)

end Part000Improved

/-- Whether an event is an operation on the rendering-surface mutex. -/
def isLockEv : Ev → Bool
  | Ev.lockAcquire => true
  | Ev.lockRelease => true
  | _ => false

/-- `printsLocked t d = true` when every console write in trace `t` happens
while the mutex is held, starting from lock depth `d`. -/
def printsLocked : List Ev → Nat → Bool
  | [], _ => true
  | Ev.lockAcquire :: r, d => printsLocked r (d + 1)
  | Ev.lockRelease :: r, d => printsLocked r (d - 1)
  | Ev.print _ :: r, d => decide (0 < d) && printsLocked r d
  | Ev.printErr _ :: r, d => decide (0 < d) && printsLocked r d
  | _ :: r, d => printsLocked r d

/-- `noBlockWhileLocked t d = true` when no blocking socket operation
(`recv`, `send`, `close`) in trace `t` happens while the mutex is held,
starting from lock depth `d`. -/
def noBlockWhileLocked : List Ev → Nat → Bool
  | [], _ => true
  | Ev.lockAcquire :: r, d => noBlockWhileLocked r (d + 1)
  | Ev.lockRelease :: r, d => noBlockWhileLocked r (d - 1)
  | Ev.recvCall :: r, d => decide (d = 0) && noBlockWhileLocked r d
  | Ev.send _ :: r, d => decide (d = 0) && noBlockWhileLocked r d
  | Ev.closeFd :: r, d => decide (d = 0) && noBlockWhileLocked r d
  | _ :: r, d => noBlockWhileLocked r d

/-- The lines the sender loop of the improved client passes to `send` when
no send fails: every input line up to and including the first `/quit`. -/
def sentUpToQuit : List String → List String
  | [] => []
  | l :: rest => if l = "/quit" then [l] else l :: sentUpToQuit rest

theorem sendsOf_append (a b : List Ev) :
    sendsOf (a ++ b) = sendsOf a ++ sendsOf b := by
  induction a with
  | nil => rfl
  | cons e r ih => cases e <;> simp [sendsOf, ih]

theorem sendsOf_map_send (l : List String) :
    sendsOf (l.map Ev.send) = l := by
  induction l with
  | nil => rfl
  | cons s r ih => simp [sendsOf, ih]

/-- When no send up to the quit line fails, the improved sender loop sends
every line before the first `/quit` in order, then the quit line, and
exits. -/
theorem senderLoop_quit_eq (sendRes : Nat → Int) (k : Nat) (pre rest : List String)
    (hpre : "/quit" ∉ pre) (hpos : ∀ j, k ≤ j → j < k + pre.length → 0 < sendRes j) :
    ChatClientLinux.senderLoop sendRes k (pre ++ "/quit" :: rest)
      = (pre.map Ev.send ++ [Ev.send "/quit"], some ()) := by
  induction pre generalizing k with
  | nil => simp [ChatClientLinux.senderLoop]
  | cons l pre ih =>
      have hl : ¬ l = "/quit" := fun h => hpre (by simp [h])
      have hk : 0 < sendRes k := hpos k le_rfl (by simp only [List.length_cons]; omega)
      have hns : ¬ sendRes k ≤ 0 := not_le.mpr hk
      have ih' := ih (k + 1) (fun h => hpre (List.mem_cons_of_mem _ h))
        (fun j hj1 hj2 => hpos j (Nat.le_of_succ_le hj1)
          (by simp only [List.length_cons]; omega))
      simp [ChatClientLinux.senderLoop, hl, hns, ih']

/-- When no send fails and no line is `/quit`, the improved sender loop
sends every line in order and keeps waiting for more input. -/
theorem senderLoop_noquit_eq (sendRes : Nat → Int) (k : Nat) (lines : List String)
    (hq : "/quit" ∉ lines) (hpos : ∀ j, 0 < sendRes j) :
    ChatClientLinux.senderLoop sendRes k lines = (lines.map Ev.send, none) := by
  induction lines generalizing k with
  | nil => rfl
  | cons l rest ih =>
      have hl : ¬ l = "/quit" := fun h => hq (by simp [h])
      have hns : ¬ sendRes k ≤ 0 := not_le.mpr (hpos k)
      simp [ChatClientLinux.senderLoop, hl, hns,
        ih (k + 1) (fun h => hq (List.mem_cons_of_mem _ h))]

/-- Whenever the improved receiver loop terminates, its trace ends with the
locked disconnect notice. -/
theorem recv_disc_suffix (clock : Nat → String) (i : Nat) (outs : List RecvOutcome)
    (h : (ChatClientLinux.receiveMessages clock i outs).2 = true) :
    ∃ p, (ChatClientLinux.receiveMessages clock i outs).1
      = p ++ [Ev.recvCall, Ev.lockAcquire, Ev.print "\nDisconnected from server.\n",
          Ev.lockRelease] := by
  induction outs generalizing i with
  | nil => simp [ChatClientLinux.receiveMessages] at h
  | cons o rest ih =>
      cases o with
      | data msg =>
          have h' : (ChatClientLinux.receiveMessages clock (i + 1) rest).2 = true := by
            simpa [ChatClientLinux.receiveMessages] using h
          obtain ⟨p, hp⟩ := ih (i + 1) h'
          refine ⟨Ev.recvCall :: Ev.lockAcquire ::
            Ev.print (if msg.startsWith "SERVER:" then
                "\n" ++ ("[" ++ clock i ++ "] ") ++ GREEN ++ msg ++ RESET ++ "\n"
              else
                "\n" ++ ("[" ++ clock i ++ "] ") ++ CYAN ++ msg ++ RESET ++ "\n") ::
            Ev.print (YELLOW ++ "You: " ++ RESET) :: Ev.lockRelease :: p, ?_⟩
          simp [ChatClientLinux.receiveMessages, hp]
      | closed => exact ⟨[], by simp [ChatClientLinux.receiveMessages]⟩
      | err => exact ⟨[], by simp [ChatClientLinux.receiveMessages]⟩

/-- Whenever the basic receiver loop terminates, its trace ends with the
orderly-close notice or with the read-error notice. -/
theorem basic_recv_term (outs : List RecvOutcome)
    (h : (Part000Basic.receiveMessages outs).2 = true) :
    ∃ p, (Part000Basic.receiveMessages outs).1
        = p ++ [Ev.recvCall, Ev.print "Server disconnected.\n"]
      ∨ (Part000Basic.receiveMessages outs).1
        = p ++ [Ev.recvCall, Ev.printErr "Error receiving data.\n"] := by
  induction outs with
  | nil => simp [Part000Basic.receiveMessages] at h
  | cons o rest ih =>
      cases o with
      | data msg =>
          have h' : (Part000Basic.receiveMessages rest).2 = true := by
            simpa [Part000Basic.receiveMessages] using h
          obtain ⟨p, hp⟩ := ih h'
          cases hp with
          | inl hp =>
              exact ⟨Ev.recvCall :: Ev.print (msg ++ "\n") :: p,
                Or.inl (by simp [Part000Basic.receiveMessages, hp])⟩
          | inr hp =>
              exact ⟨Ev.recvCall :: Ev.print (msg ++ "\n") :: p,
                Or.inr (by simp [Part000Basic.receiveMessages, hp])⟩
      | closed => exact ⟨[], Or.inl (by simp [Part000Basic.receiveMessages])⟩
      | err => exact ⟨[], Or.inr (by simp [Part000Basic.receiveMessages])⟩

/-- Claim C1: when the operator types `/quit`, the improved client's Sender
writes the final quit line to the socket, exits the input loop, closes the
socket, joins the Receiver thread, and the process exits with status 0.
The send of the quit line is best-effort: `sendRes` is constrained only on
the sends before the quit line, so the conclusion holds even when the quit
send itself reports failure. -/
theorem claim1_quit_shutdown (username : String) (pre rest : List String)
    (sendRes : Nat → Int) (hpre : "/quit" ∉ pre)
    (hpos : ∀ j, 1 ≤ j → j < 1 + pre.length → 0 < sendRes j) :
    ChatClientLinux.main true true username (pre ++ "/quit" :: rest) sendRes
      = (ChatClientLinux.startupEvents username
          ++ (pre.map Ev.send ++ [Ev.send "/quit"])
          ++ [Ev.closeFd, Ev.joinReceiver], some 0) := by
  have h := senderLoop_quit_eq sendRes 1 pre rest hpre hpos
  simp [ChatClientLinux.main, h]

/-- Concrete instance of `claim1_quit_shutdown`: one chat line then `/quit`,
with the quit send itself failing (`sendRes 2 = -1`). -/
theorem claim1_quit_shutdown_witness :
    ChatClientLinux.main true true "alice" (["hi"] ++ "/quit" :: [])
        (fun k => if k = 2 then -1 else 1)
      = (ChatClientLinux.startupEvents "alice"
          ++ (["hi"].map Ev.send ++ [Ev.send "/quit"])
          ++ [Ev.closeFd, Ev.joinReceiver], some 0) :=
  claim1_quit_shutdown "alice" ["hi"] [] _ (by decide)
    (by
      intro j h1 h2
      simp only [List.length_cons, List.length_nil] at h2
      have hj : j = 1 := by omega
      subst hj
      decide)

/-- Claim C2: after a successful connect the improved client prompts for a
username before its first socket write (the prompt is the second event of
`startupEvents`, the `LOGIN` send the third), the first payload it sends is
`LOGIN <username>`, and every subsequent operator line is sent as chat
text.  Stated for runs whose modelled input contains no `/quit` and whose
sends all succeed. -/
theorem claim2_login_first (username : String) (lines : List String)
    (sendRes : Nat → Int) (hq : "/quit" ∉ lines) (hpos : ∀ j, 0 < sendRes j) :
    sendsOf (ChatClientLinux.main true true username lines sendRes).1
        = ("LOGIN " ++ username) :: lines
      ∧ ∃ t, (ChatClientLinux.main true true username lines sendRes).1
        = ChatClientLinux.startupEvents username ++ t := by
  have h := senderLoop_noquit_eq sendRes 1 lines hq hpos
  constructor
  · simp [ChatClientLinux.main, h, sendsOf_append, sendsOf_map_send,
      ChatClientLinux.startupEvents, sendsOf]
  · exact ⟨lines.map Ev.send, by simp [ChatClientLinux.main, h]⟩

/-- Concrete instance of `claim2_login_first`. -/
theorem claim2_login_first_witness :
    sendsOf (ChatClientLinux.main true true "bob" ["hello"] fun _ => 1).1
        = ("LOGIN " ++ "bob") :: ["hello"]
      ∧ ∃ t, (ChatClientLinux.main true true "bob" ["hello"] fun _ => 1).1
        = ChatClientLinux.startupEvents "bob" ++ t :=
  claim2_login_first "bob" ["hello"] _ (by decide) (fun _ => by decide)

/-- Claim C3 fails on the code: the improved client never appends the
newline record separator to what it sends.  In this concrete run the socket
payloads are exactly the LOGIN line, the chat line, and the quit line, and
none of them ends in a newline character. -/
theorem claim3_counterexample :
    sendsOf (ChatClientLinux.main true true "alice" ["hi", "/quit"] fun _ => 1).1
        = ["LOGIN alice", "hi", "/quit"]
      ∧ ("LOGIN alice").data.getLast? ≠ some '\n'
      ∧ ("hi").data.getLast? ≠ some '\n'
      ∧ ("/quit").data.getLast? ≠ some '\n' := by
  refine ⟨by decide, by decide, by decide, by decide⟩

theorem senderLoop_sends_prefix (sendRes : Nat → Int) (k : Nat) (lines : List String) :
    ∃ u, sendsOf (ChatClientLinux.senderLoop sendRes k lines).1 ++ u
      = sentUpToQuit lines := by
  induction lines generalizing k with
  | nil => exact ⟨[], rfl⟩
  | cons l rest ih =>
      by_cases hl : l = "/quit"
      · subst hl
        exact ⟨[], by simp [ChatClientLinux.senderLoop, sentUpToQuit, sendsOf]⟩
      · by_cases hs : sendRes k ≤ 0
        · exact ⟨sentUpToQuit rest, by
            simp [ChatClientLinux.senderLoop, sentUpToQuit, hl, hs, sendsOf]⟩
        · obtain ⟨u, hu⟩ := ih (k + 1)
          exact ⟨u, by
            simp [ChatClientLinux.senderLoop, sentUpToQuit, hl, hs, sendsOf, hu]⟩

/-- Claim C3 amended: the improved client sends every payload verbatim with
no newline separator appended — the first payload is the exact string
`LOGIN <username>`, and the subsequent payloads are a prefix of the
operator's lines up to and including the first `/quit`, each exactly as
typed. -/
theorem claim3_amended (username : String) (lines : List String) (sendRes : Nat → Int) :
    ∃ t u, sendsOf (ChatClientLinux.main true true username lines sendRes).1
        = ("LOGIN " ++ username) :: t
      ∧ t ++ u = sentUpToQuit lines := by
  obtain ⟨u, hu⟩ := senderLoop_sends_prefix sendRes 1 lines
  refine ⟨sendsOf (ChatClientLinux.senderLoop sendRes 1 lines).1, u, ?_, hu⟩
  by_cases h2 : (ChatClientLinux.senderLoop sendRes 1 lines).2 = none <;>
    simp [ChatClientLinux.main, h2, sendsOf_append, ChatClientLinux.startupEvents,
      sendsOf]

/-- Claim C4: whenever the Receiver's blocking read reports end-of-stream
or a transport error, the client prints a disconnect notice before the
receive loop finishes — a terminating receive-loop trace always ends with
such a notice, in the improved client and in the basic variant alike, so
the client never goes silent on transport loss. -/
theorem claim4_disconnect_notice (clock : Nat → String) (i : Nat)
    (outs outsB : List RecvOutcome)
    (h : (ChatClientLinux.receiveMessages clock i outs).2 = true)
    (hB : (Part000Basic.receiveMessages outsB).2 = true) :
    (∃ p, (ChatClientLinux.receiveMessages clock i outs).1
      = p ++ [Ev.recvCall, Ev.lockAcquire, Ev.print "\nDisconnected from server.\n",
          Ev.lockRelease])
    ∧ ∃ p, (Part000Basic.receiveMessages outsB).1
          = p ++ [Ev.recvCall, Ev.print "Server disconnected.\n"]
        ∨ (Part000Basic.receiveMessages outsB).1
          = p ++ [Ev.recvCall, Ev.printErr "Error receiving data.\n"] :=
  ⟨recv_disc_suffix clock i outs h, basic_recv_term outsB hB⟩

/-- Concrete instance of `claim4_disconnect_notice`: the improved receiver
sees one chunk then an orderly close; the basic receiver sees a transport
error. -/
theorem claim4_disconnect_notice_witness :
    (∃ p, (ChatClientLinux.receiveMessages (fun _ => "00:00") 0
        [RecvOutcome.data "x", RecvOutcome.closed]).1
      = p ++ [Ev.recvCall, Ev.lockAcquire, Ev.print "\nDisconnected from server.\n",
          Ev.lockRelease])
    ∧ ∃ p, (Part000Basic.receiveMessages [RecvOutcome.err]).1
          = p ++ [Ev.recvCall, Ev.print "Server disconnected.\n"]
        ∨ (Part000Basic.receiveMessages [RecvOutcome.err]).1
          = p ++ [Ev.recvCall, Ev.printErr "Error receiving data.\n"] :=
  claim4_disconnect_notice (fun _ => "00:00") 0
    [RecvOutcome.data "x", RecvOutcome.closed] [RecvOutcome.err] rfl rfl

/-- Claim C5 fails on the improved client: its receive loop handles a
zero-byte read and a negative read in one and the same `else` branch, so
the two conditions produce identical behavior — here, identical whole
traces on an orderly close and on a transport error. -/
theorem claim5_counterexample :
    ChatClientLinux.receiveMessages (fun _ => "00:00") 0 [RecvOutcome.closed]
      = ChatClientLinux.receiveMessages (fun _ => "00:00") 0 [RecvOutcome.err] := rfl

/-- Claim C5 amended: only the basic variant's Receiver distinguishes
orderly close (it prints `Server disconnected.` on stdout) from a
transport error (it prints `Error receiving data.` on stderr); the
improved client's Receiver treats the two conditions identically, printing
the same `Disconnected from server.` notice in either case. -/
theorem claim5_amended :
    (∀ (clock : Nat → String) (i : Nat) (r rp : List RecvOutcome),
        ChatClientLinux.receiveMessages clock i (RecvOutcome.closed :: r)
          = ChatClientLinux.receiveMessages clock i (RecvOutcome.err :: rp))
    ∧ ∀ (r rp : List RecvOutcome),
        Part000Basic.receiveMessages (RecvOutcome.closed :: r)
          ≠ Part000Basic.receiveMessages (RecvOutcome.err :: rp) := by
  constructor
  · intro clock i r rp
    rfl
  · intro r rp h
    simp [Part000Basic.receiveMessages] at h

/-- Claim C6: with every send before the quit line succeeding, the improved
sender loop writes each line preceding the first `/quit` exactly once and
in input order (followed only by the quit line itself); and a non-positive
send return makes the loop print the failure notice and terminate at once,
sending nothing further. -/
theorem claim6_order_and_failure (sendRes sendResB : Nat → Int)
    (pre rest : List String) (k : Nat) (l : String) (restB : List String)
    (hpre : "/quit" ∉ pre) (hpos : ∀ j, 1 ≤ j → j < 1 + pre.length → 0 < sendRes j)
    (hl : l ≠ "/quit") (hfail : sendResB k ≤ 0) :
    sendsOf (ChatClientLinux.senderLoop sendRes 1 (pre ++ "/quit" :: rest)).1
        = pre ++ ["/quit"]
      ∧ ChatClientLinux.senderLoop sendResB k (l :: restB)
        = ([Ev.send l, Ev.print "\nFailed to send message. Server may be offline.\n"],
            some ()) := by
  constructor
  · rw [senderLoop_quit_eq sendRes 1 pre rest hpre hpos]
    simp [sendsOf_append, sendsOf_map_send, sendsOf]
  · simp [ChatClientLinux.senderLoop, hl, hfail]

/-- Concrete instance of `claim6_order_and_failure`. -/
theorem claim6_order_and_failure_witness :
    sendsOf (ChatClientLinux.senderLoop (fun _ => 1) 1 (["a", "b"] ++ "/quit" :: [])).1
        = ["a", "b"] ++ ["/quit"]
      ∧ ChatClientLinux.senderLoop (fun _ => 0) 1 ("x" :: ["y"])
        = ([Ev.send "x", Ev.print "\nFailed to send message. Server may be offline.\n"],
            some ()) :=
  claim6_order_and_failure _ _ ["a", "b"] [] 1 "x" ["y"] (by decide)
    (fun _ _ _ => by decide) (by decide) (by decide)

theorem closeFd_not_in_recv (clock : Nat → String) (i : Nat) (outs : List RecvOutcome) :
    Ev.closeFd ∉ (ChatClientLinux.receiveMessages clock i outs).1 := by
  induction outs generalizing i with
  | nil => simp [ChatClientLinux.receiveMessages]
  | cons o rest ih =>
      cases o with
      | data msg => simp [ChatClientLinux.receiveMessages, ih (i + 1)]
      | closed => simp [ChatClientLinux.receiveMessages]
      | err => simp [ChatClientLinux.receiveMessages]

theorem closeFd_not_in_loop (sendRes : Nat → Int) (k : Nat) (lines : List String) :
    Ev.closeFd ∉ (ChatClientLinux.senderLoop sendRes k lines).1 := by
  induction lines generalizing k with
  | nil => simp [ChatClientLinux.senderLoop]
  | cons l rest ih =>
      by_cases hl : l = "/quit"
      · simp [ChatClientLinux.senderLoop, hl]
      · by_cases hs : sendRes k ≤ 0
        · simp [ChatClientLinux.senderLoop, hl, hs]
        · simp [ChatClientLinux.senderLoop, hl, hs, ih (k + 1)]

/-- Claim C7: on end-of-stream or read error the Receiver reports the
disconnection and terminates its loop without ever closing the socket
handle; the Sender's context alone closes the socket, after its own loop
has exited (no close occurs anywhere before the final close-then-join). -/
theorem claim7_close_ownership (clock : Nat → String) (i : Nat) (outs : List RecvOutcome)
    (username : String) (lines : List String) (sendRes : Nat → Int)
    (hterm : (ChatClientLinux.receiveMessages clock i outs).2 = true)
    (hmain : (ChatClientLinux.main true true username lines sendRes).2 = some 0) :
    Ev.closeFd ∉ (ChatClientLinux.receiveMessages clock i outs).1
    ∧ Ev.print "\nDisconnected from server.\n"
        ∈ (ChatClientLinux.receiveMessages clock i outs).1
    ∧ ∃ p, (ChatClientLinux.main true true username lines sendRes).1
        = p ++ [Ev.closeFd, Ev.joinReceiver] ∧ Ev.closeFd ∉ p := by
  refine ⟨closeFd_not_in_recv clock i outs, ?_, ?_⟩
  · obtain ⟨p, hp⟩ := recv_disc_suffix clock i outs hterm
    rw [hp]
    simp
  · by_cases h2 : (ChatClientLinux.senderLoop sendRes 1 lines).2 = none
    · exfalso
      simp [ChatClientLinux.main, h2] at hmain
    · refine ⟨ChatClientLinux.startupEvents username
        ++ (ChatClientLinux.senderLoop sendRes 1 lines).1, ?_, ?_⟩
      · simp [ChatClientLinux.main, h2]
      · simp [ChatClientLinux.startupEvents, List.mem_append,
          closeFd_not_in_loop sendRes 1 lines]

/-- Concrete instance of `claim7_close_ownership`. -/
theorem claim7_close_ownership_witness :
    Ev.closeFd ∉ (ChatClientLinux.receiveMessages (fun _ => "00:00") 0
        [RecvOutcome.err]).1
    ∧ Ev.print "\nDisconnected from server.\n"
        ∈ (ChatClientLinux.receiveMessages (fun _ => "00:00") 0 [RecvOutcome.err]).1
    ∧ ∃ p, (ChatClientLinux.main true true "alice" ["/quit"] fun _ => 1).1
        = p ++ [Ev.closeFd, Ev.joinReceiver] ∧ Ev.closeFd ∉ p :=
  claim7_close_ownership (fun _ => "00:00") 0 [RecvOutcome.err] "alice" ["/quit"] _
    rfl rfl

theorem dup_recv_eq (clock : Nat → String) (i : Nat) (outs : List RecvOutcome) :
    Part000Improved.receiveMessages clock i outs
      = ChatClientLinux.receiveMessages clock i outs := by
  induction outs generalizing i with
  | nil => rfl
  | cons o rest ih =>
      cases o with
      | data msg =>
          simp [Part000Improved.receiveMessages, ChatClientLinux.receiveMessages,
            ih (i + 1)]
      | closed => rfl
      | err => rfl

theorem dup_senderLoop_eq (sendRes : Nat → Int) (k : Nat) (lines : List String) :
    Part000Improved.senderLoop sendRes k lines
      = ChatClientLinux.senderLoop sendRes k lines := by
  induction lines generalizing k with
  | nil => rfl
  | cons l rest ih =>
      simp [Part000Improved.senderLoop, ChatClientLinux.senderLoop, ih (k + 1)]

/-- Claim C8 fails on the code: the two copies of the improved client are
not equivalent on every run.  On a run where `connect` fails they render
different output — `chat_client_linux.cpp` prints
`Failed to connect to the server.` and exits without closing the socket,
while the `part_000` copy prints
`Failed to connect to the server. Ensure server is running.` and closes the
socket before exiting. -/
theorem claim8_counterexample :
    ChatClientLinux.main true false "alice" [] (fun _ => 1)
      ≠ Part000Improved.main true false "alice" [] (fun _ => 1) := by
  decide

/-- Claim C8 amended: the two copies of the improved client agree on every
run that gets past `connect` — identical receiver traces and identical
`main` traces and exit statuses for every operator input, send-result
assignment and received data — and also on socket-creation failure; they
differ only on the connect-failure path, in the text of the failure notice
and in whether the socket is closed, and even there both exit with the same
status. -/
theorem claim8_amended (clock : Nat → String) (i : Nat) (outs : List RecvOutcome)
    (username : String) (lines : List String) (sendRes : Nat → Int) (b : Bool) :
    Part000Improved.receiveMessages clock i outs
        = ChatClientLinux.receiveMessages clock i outs
    ∧ Part000Improved.main true true username lines sendRes
        = ChatClientLinux.main true true username lines sendRes
    ∧ Part000Improved.main false b username lines sendRes
        = ChatClientLinux.main false b username lines sendRes
    ∧ (Part000Improved.main true false username lines sendRes).2
        = (ChatClientLinux.main true false username lines sendRes).2 := by
  refine ⟨dup_recv_eq clock i outs, ?_, rfl, rfl⟩
  simp [Part000Improved.main, ChatClientLinux.main, Part000Improved.startupEvents,
    ChatClientLinux.startupEvents, dup_senderLoop_eq sendRes 1 lines]

/-- Claim C9 fails on the code: the Sender's console writes are not
performed under `coutMutex`.  In this concrete run of the improved client
the main trace contains console writes (the startup notices, the `You: `
prompt) at lock depth zero. -/
theorem claim9_counterexample :
    printsLocked (ChatClientLinux.main true true "alice" ["hi", "/quit"] fun _ => 1).1 0
      = false := by
  decide

theorem recv_printsLocked (clock : Nat → String) (i : Nat) (outs : List RecvOutcome) :
    printsLocked (ChatClientLinux.receiveMessages clock i outs).1 0 = true := by
  induction outs generalizing i with
  | nil => rfl
  | cons o rest ih =>
      cases o with
      | data msg => simp [ChatClientLinux.receiveMessages, printsLocked, ih (i + 1)]
      | closed => rfl
      | err => rfl

theorem recv_noBlockWhileLocked (clock : Nat → String) (i : Nat)
    (outs : List RecvOutcome) :
    noBlockWhileLocked (ChatClientLinux.receiveMessages clock i outs).1 0 = true := by
  induction outs generalizing i with
  | nil => rfl
  | cons o rest ih =>
      cases o with
      | data msg =>
          simp [ChatClientLinux.receiveMessages, noBlockWhileLocked, ih (i + 1)]
      | closed => rfl
      | err => rfl

theorem loop_no_lock_events (sendRes : Nat → Int) (k : Nat) (lines : List String) :
    ((ChatClientLinux.senderLoop sendRes k lines).1.all fun e => ! isLockEv e)
      = true := by
  induction lines generalizing k with
  | nil => rfl
  | cons l rest ih =>
      by_cases hl : l = "/quit"
      · simp [ChatClientLinux.senderLoop, hl, isLockEv]
      · by_cases hs : sendRes k ≤ 0
        · simp [ChatClientLinux.senderLoop, hl, hs, isLockEv]
        · have ih' := ih (k + 1)
          simp only [List.all_eq_true, Bool.not_eq_true', isLockEv] at ih'
          simp [ChatClientLinux.senderLoop, hl, hs, isLockEv]
          exact ih'

/-- The trace of the improved client's `main` after a successful connect:
startup events, then the sender loop's events, then (when the loop exited)
the close of the socket and the join on the receiver. -/
theorem main_trace_eq (username : String) (lines : List String) (sendRes : Nat → Int) :
    (ChatClientLinux.main true true username lines sendRes).1
      = ChatClientLinux.startupEvents username
        ++ ((ChatClientLinux.senderLoop sendRes 1 lines).1
        ++ (if (ChatClientLinux.senderLoop sendRes 1 lines).2 = none then []
            else [Ev.closeFd, Ev.joinReceiver])) := by
  by_cases h2 : (ChatClientLinux.senderLoop sendRes 1 lines).2 = none <;>
    simp [ChatClientLinux.main, h2]

/-- Claim C9 amended: every console write of the Receiver is performed
while holding the rendering lock, and the lock is never held across a
blocking socket operation (each iteration acquires it only after `recv`
returns and releases it after the single render+prompt write); the
Sender's context, by contrast, performs all its console writes — startup
notices, its prompt, and the send-failure notice — without ever touching
the lock. -/
theorem claim9_amended (clock : Nat → String) (i : Nat) (outs : List RecvOutcome)
    (username : String) (lines : List String) (sendRes : Nat → Int) :
    printsLocked (ChatClientLinux.receiveMessages clock i outs).1 0 = true
    ∧ noBlockWhileLocked (ChatClientLinux.receiveMessages clock i outs).1 0 = true
    ∧ ((ChatClientLinux.main true true username lines sendRes).1.all
        fun e => ! isLockEv e) = true := by
  refine ⟨recv_printsLocked clock i outs, recv_noBlockWhileLocked clock i outs, ?_⟩
  rw [main_trace_eq, List.all_append, List.all_append,
    loop_no_lock_events sendRes 1 lines]
  have hstart : ((ChatClientLinux.startupEvents username).all fun e => ! isLockEv e)
      = true := rfl
  rw [hstart]
  by_cases h2 : (ChatClientLinux.senderLoop sendRes 1 lines).2 = none <;>
    simp [h2, isLockEv]

/-- Claim C10: `recv` is invoked with capacity `sizeof(buffer) - 1 = 1023`
bytes, so any returned byte count `n` is at most 1023, and every buffer
index the iteration writes — the `n` data bytes at indices `0 .. n - 1` and
the null-terminator store `buffer[n]` — is strictly below the buffer size
1024; the stored bytes therefore always form a properly terminated string
and the loop never writes past the buffer. -/
theorem claim10_buffer_safety (n : Nat) (h : n ≤ ChatClientLinux.recvCapacity) :
    ChatClientLinux.recvCapacity = ChatClientLinux.bufferSize - 1
    ∧ n ≤ 1023
    ∧ ∀ idx ∈ ChatClientLinux.writtenIndices n, idx < ChatClientLinux.bufferSize := by
  have hn : n ≤ 1023 := by
    simpa [ChatClientLinux.recvCapacity, ChatClientLinux.bufferSize] using h
  refine ⟨rfl, hn, ?_⟩
  intro idx hidx
  simp only [ChatClientLinux.writtenIndices, List.mem_append, List.mem_range,
    List.mem_singleton] at hidx
  have hb : ChatClientLinux.bufferSize = 1024 := rfl
  rw [hb]
  rcases hidx with h1 | h1
  · omega
  · omega

/-- Concrete instance of `claim10_buffer_safety` at the maximal byte count
1023. -/
theorem claim10_buffer_safety_witness :
    1023 ≤ ChatClientLinux.recvCapacity
    ∧ (ChatClientLinux.recvCapacity = ChatClientLinux.bufferSize - 1
      ∧ 1023 ≤ 1023
      ∧ ∀ idx ∈ ChatClientLinux.writtenIndices 1023,
          idx < ChatClientLinux.bufferSize) :=
  ⟨by decide, claim10_buffer_safety 1023 (by decide)⟩
